import Mathlib

/-!
Verification development for the receipt-generator service.

The embedding models the webhook intake, payment commit, receipt fulfillment
and recovery components of the repository. Pure TypeScript functions become
Lean functions; Prisma-backed state is an explicit `DB` record threaded
through every operation; a thrown JS exception is the `Outc.thrown`
constructor, carrying the error message. Node library behaviour that the code
relies on (crypto HMAC, `timingSafeEqual`, `Buffer.from(_, "hex")`,
`JSON.parse`) is modelled to match the documented Node semantics.
-/

set_option maxRecDepth 10000

namespace ReceiptGen

/-! ## Node crypto: SHA-256, HMAC, hex -/

/-- 32-bit truncation: word arithmetic of the hash. -/
def w32 (n : Nat) : Nat := n % 4294967296

def rotr32 (x n : Nat) : Nat := w32 ((x >>> n) ||| (x <<< (32 - n)))

def shr32 (x n : Nat) : Nat := x >>> n

/-- SHA-256 round constants (FIPS 180-4). -/
def sha256K : List Nat :=
  [1116352408, 1899447441, 3049323471, 3921009573, 961987163,
   1508970993, 2453635748, 2870763221, 3624381080, 310598401,
   607225278, 1426881987, 1925078388, 2162078206, 2614888103,
   3248222580, 3835390401, 4022224774, 264347078, 604807628,
   770255983, 1249150122, 1555081692, 1996064986, 2554220882,
   2821834349, 2952996808, 3210313671, 3336571891, 3584528711,
   113926993, 338241895, 666307205, 773529912, 1294757372,
   1396182291, 1695183700, 1986661051, 2177026350, 2456956037,
   2730485921, 2820302411, 3259730800, 3345764771, 3516065817,
   3600352804, 4094571909, 275423344, 430227734, 506948616,
   659060556, 883997877, 958139571, 1322822218, 1537002063,
   1747873779, 1955562222, 2024104815, 2227730452, 2361852424,
   2428436474, 2756734187, 3204031479, 3329325298]

/-- Working state of the compression function: the eight 32-bit hash words. -/
structure Hash8 where
  a : Nat
  b : Nat
  c : Nat
  d : Nat
  e : Nat
  f : Nat
  g : Nat
  h : Nat
deriving Repr, DecidableEq

def sha256H0 : Hash8 :=
  ⟨1779033703, 3144134277, 1013904242, 2773480762,
   1359893119, 2600822924, 528734635, 1541459225⟩

/-- Big-endian 32-bit word from four bytes. -/
def word4 (b0 b1 b2 b3 : Nat) : Nat := ((b0 * 256 + b1) * 256 + b2) * 256 + b3

/-- The 64-entry message schedule of one 64-byte block. -/
def sha256Schedule (block : List Nat) : List Nat :=
  let w16 := (List.range 16).map fun i =>
    word4 (block.getD (4*i) 0) (block.getD (4*i+1) 0)
          (block.getD (4*i+2) 0) (block.getD (4*i+3) 0)
  (List.range 48).foldl
    (fun w i =>
      let s0 := (rotr32 (w.getD (i+1) 0) 7) ^^^ (rotr32 (w.getD (i+1) 0) 18) ^^^
                (shr32 (w.getD (i+1) 0) 3)
      let s1 := (rotr32 (w.getD (i+14) 0) 17) ^^^ (rotr32 (w.getD (i+14) 0) 19) ^^^
                (shr32 (w.getD (i+14) 0) 10)
      w ++ [w32 (w.getD i 0 + s0 + w.getD (i+9) 0 + s1)])
    w16

def sha256Round (st : Hash8) (ki wi : Nat) : Hash8 :=
  let s1 := (rotr32 st.e 6) ^^^ (rotr32 st.e 11) ^^^ (rotr32 st.e 25)
  let ch := (st.e &&& st.f) ^^^ ((0xffffffff ^^^ st.e) &&& st.g)
  let t1 := w32 (st.h + s1 + ch + ki + wi)
  let s0 := (rotr32 st.a 2) ^^^ (rotr32 st.a 13) ^^^ (rotr32 st.a 22)
  let mj := (st.a &&& st.b) ^^^ (st.a &&& st.c) ^^^ (st.b &&& st.c)
  let t2 := w32 (s0 + mj)
  ⟨w32 (t1 + t2), st.a, st.b, st.c, w32 (st.d + t1), st.e, st.f, st.g⟩

/-- Compress one 64-byte block into the running hash. -/
def sha256Compress (hv : Hash8) (block : List Nat) : Hash8 :=
  let w := sha256Schedule block
  let fin := (List.range 64).foldl
    (fun st i => sha256Round st (sha256K.getD i 0) (w.getD i 0)) hv
  ⟨w32 (hv.a + fin.a), w32 (hv.b + fin.b), w32 (hv.c + fin.c), w32 (hv.d + fin.d),
   w32 (hv.e + fin.e), w32 (hv.f + fin.f), w32 (hv.g + fin.g), w32 (hv.h + fin.h)⟩

/-- Big-endian 8-byte encoding of the bit length. -/
def be64 (n : Nat) : List Nat :=
  [(n >>> 56) % 256, (n >>> 48) % 256, (n >>> 40) % 256, (n >>> 32) % 256,
   (n >>> 24) % 256, (n >>> 16) % 256, (n >>> 8) % 256, n % 256]

/-- FIPS 180-4 padding: 0x80, zeros to 56 mod 64, then the 64-bit bit length. -/
def sha256Pad (msg : List Nat) : List Nat :=
  let l := msg.length
  let k := (64 - ((l + 9) % 64)) % 64
  msg ++ [128] ++ List.replicate k 0 ++ be64 (8 * l)

/-- Fuel-based splitter (structural, so the kernel can evaluate it). -/
def chunksGo : Nat → List Nat → List (List Nat)
  | _, [] => []
  | 0, _ => []
  | fuel + 1, l => l.take 64 :: chunksGo fuel (l.drop 64)

/-- Split into 64-byte blocks (padded input length is a multiple of 64). -/
def chunks64 (l : List Nat) : List (List Nat) := chunksGo l.length l

/-- A 32-bit word as four big-endian bytes. -/
def wordBytes (x : Nat) : List Nat :=
  [(x >>> 24) % 256, (x >>> 16) % 256, (x >>> 8) % 256, x % 256]

def hash8Bytes (hv : Hash8) : List Nat :=
  wordBytes hv.a ++ wordBytes hv.b ++ wordBytes hv.c ++ wordBytes hv.d ++
  wordBytes hv.e ++ wordBytes hv.f ++ wordBytes hv.g ++ wordBytes hv.h

/-- SHA-256 of a byte list, as its 32 digest bytes. -/
def sha256 (msg : List Nat) : List Nat :=
  hash8Bytes ((chunks64 (sha256Pad msg)).foldl sha256Compress sha256H0)

def hexDigitChar (n : Nat) : Char :=
  if n < 10 then Char.ofNat (48 + n) else Char.ofNat (87 + n)

def bytesToHexData (l : List Nat) : List Char :=
  l.flatMap fun b => [hexDigitChar ((b / 16) % 16), hexDigitChar (b % 16)]

/-- Lowercase hex rendering, as Node `digest("hex")`. -/
def bytesToHex (l : List Nat) : String := String.mk (bytesToHexData l)

/-- HMAC-SHA256 (RFC 2104) over byte lists, block size 64 — what
`crypto.createHmac("sha256", secret)` computes. -/
def hmacSha256 (key msg : List Nat) : List Nat :=
  let k0 := if key.length > 64 then sha256 key else key
  let kp := k0 ++ List.replicate (64 - k0.length) 0
  let ip := kp.map (fun b => b ^^^ 0x36)
  let op := kp.map (fun b => b ^^^ 0x5c)
  sha256 (op ++ sha256 (ip ++ msg))

/-- Byte view of an ASCII string (codepoints; equals UTF-8 on ASCII input). -/
def strBytes (s : String) : List Nat := s.data.map Char.toNat

def hmacSha256Hex (key : String) (msg : List Nat) : String :=
  bytesToHex (hmacSha256 (strBytes key) msg)

/-- Known-answer test: SHA-256 of the empty message (FIPS 180-4 vector). -/
theorem sha256_empty_vector :
    bytesToHex (sha256 []) =
      "e3b0c44298fc1c149afbf4c8996fb92427ae41e4649b934ca495991b7852b855" := by
  decide

/-- One hex value of a character, as Node `Buffer.from(_, "hex")` reads it. -/
def hexVal (c : Char) : Option Nat :=
  if 48 ≤ c.toNat ∧ c.toNat ≤ 57 then some (c.toNat - 48)
  else if 97 ≤ c.toNat ∧ c.toNat ≤ 102 then some (c.toNat - 87)
  else if 65 ≤ c.toNat ∧ c.toNat ≤ 70 then some (c.toNat - 55)
  else none

/-- Node `Buffer.from(s, "hex")`: decode hex pairs, stopping at the first
invalid pair; a trailing lone digit is dropped. -/
def hexDecodeData : List Char → List Nat
  | hi :: lo :: rest =>
    match hexVal hi, hexVal lo with
    | some a, some b => (16 * a + b) :: hexDecodeData rest
    | _, _ => []
  | _ => []

def hexDecode (s : String) : List Nat := hexDecodeData s.data

/-- Node `crypto.timingSafeEqual`: throws when the buffers have distinct
lengths, otherwise reports byte equality. -/
def timingSafeEqual (a b : List Nat) : Except String Bool :=
  if a.length = b.length then .ok (a == b)
  else .error "Input buffers must have the same byte length"

instance {ε α : Type} [DecidableEq ε] [DecidableEq α] :
    DecidableEq (Except ε α) := fun x y => by
  cases x <;> cases y
  case error.error e f => exact decidable_of_iff (e = f) (by simp)
  case error.ok e a => exact .isFalse (by simp)
  case ok.error a e => exact .isFalse (by simp)
  case ok.ok a b => exact decidable_of_iff (a = b) (by simp)

/-! ## JS string helpers -/

def toLowerStr (s : String) : String := String.mk (s.data.map Char.toLower)

def toUpperStr (s : String) : String := String.mk (s.data.map Char.toUpper)

/-- JS `String.prototype.includes`. -/
def strIncludes (hay needle : String) : Bool :=
  hay.data.tails.any (fun t => needle.data.isPrefixOf t)

/-- JS `String.prototype.padStart(w, "0")`. -/
def zeroPad (w : Nat) (s : String) : String :=
  if s.length < w then String.mk (List.replicate (w - s.length) '0') ++ s else s

/-! ## Data model (prisma schema as used by the services) -/

inductive OrderStatus where
  | PENDING_PAYMENT
  | PAID
  | PAYMENT_FAILED
  | CANCELLED
deriving Repr, DecidableEq

inductive PaymentTxStatus where
  | SUCCEEDED
  | FAILED
deriving Repr, DecidableEq

inductive ReceiptStatus where
  | PENDING
  | COMPLETED
  | FAILED
deriving Repr, DecidableEq

inductive EmailStatus where
  | SENT
  | FAILED
deriving Repr, DecidableEq

structure User where
  id : String
  email : String
  firstName : Option String := none
  lastName : Option String := none
deriving Repr, DecidableEq

structure Order where
  id : String
  orderNumber : String
  userId : String
  storeId : String
  items : String
  subtotal : Int
  tax : Int
  shipping : Int
  discount : Int
  total : Int
  status : OrderStatus
  paidAt : Option Int := none
  shippingAddress : Option String := none
  createdAt : Int
deriving Repr, DecidableEq

structure PaymentTransaction where
  id : String
  transactionId : String
  orderId : String
  userId : String
  storeId : String
  provider : String
  amount : Int
  currency : String
  status : PaymentTxStatus
  webhookLogId : String
  succeededAt : Option Int := none
  failedAt : Option Int := none
  failureReason : Option String := none
deriving Repr, DecidableEq

/-- The frozen copy of the order written into the receipt
(`PaymentService.createOrderSnapshot`). -/
structure OrderSnapshot where
  orderNumber : String
  items : String
  subtotal : Int
  tax : Int
  shipping : Int
  discount : Int
  total : Int
  shippingAddress : Option String := none
deriving Repr, DecidableEq

structure Receipt where
  id : String
  receiptNumber : String
  orderId : String
  transactionId : String
  userId : String
  storeId : String
  orderSnapshot : OrderSnapshot
  paymentMethod : String
  paidAt : Int
  amount : Int
  currency : String
  emailRecipient : String
  status : ReceiptStatus
  pdfGenerated : Bool := false
  pdfGenerationAttempts : Nat := 0
  pdfLocalPath : Option String := none
  cloudinaryUploaded : Bool := false
  cloudinaryUploadAttempts : Nat := 0
  emailSent : Bool := false
  emailSentAt : Option Int := none
  emailSendAttempts : Nat := 0
  emailPermanentFailure : Bool := false
  emailLastError : Option String := none
  createdAt : Int
deriving Repr, DecidableEq

/-- The normalized webhook payload shape `{transaction_id, order_id, status,
amount, currency}`; this is also the JSON object the mock controller and the
tests deliver as the request body. -/
structure ParsedPayload where
  transaction_id : String
  order_id : String
  status : String
  amount : Int
  currency : String
deriving Repr, DecidableEq

structure WebhookLog where
  id : String
  webhookId : String
  provider : String
  eventType : String
  rawPayload : ParsedPayload
  signature : Option String := none
  signatureValid : Bool
  processed : Bool := false
  processedAt : Option Int := none
  orderId : Option String := none
  transactionId : Option String := none
  amount : Option Int := none
  currency : Option String := none
  paymentStatus : Option String := none
  outcome : Option String := none
  errorMessage : Option String := none
  processingAttempts : Nat := 0
  expiresAt : Int
deriving Repr, DecidableEq

structure EmailLog where
  receiptId : String
  userId : String
  toAddr : String
  fromAddr : String
  subject : String
  status : EmailStatus
  messageId : Option String := none
  attempts : Option Nat := none
  errorCode : Option String := none
  errorMessage : Option String := none
  errorCategory : Option String := none
  sentAt : Option Int := none
  lastAttemptAt : Option Int := none
  expiresAt : Int
deriving Repr, DecidableEq

/-- A job accepted by the Bull broker, with its effective options (per-job
options merged over the queue defaults). -/
structure EnqueuedJob where
  id : String
  queueName : String
  dataReceiptId : Option String := none
  dataOrderId : Option String := none
  dataTransactionId : Option String := none
  dataUserId : Option String := none
  isRecovery : Bool := false
  attempts : Nat
  backoffType : Option String := none
  backoffDelayMs : Option Nat := none
deriving Repr, DecidableEq

/-- The `data` argument of the enqueue helpers. -/
structure JobData where
  receiptId : Option String := none
  orderId : Option String := none
  transactionId : Option String := none
  userId : Option String := none
  isRecovery : Bool := false
deriving Repr, DecidableEq

/-- The relational store plus the broker queue contents, with a counter
feeding generated row and job ids. -/
structure DB where
  users : List User := []
  orders : List Order := []
  paymentTransactions : List PaymentTransaction := []
  receipts : List Receipt := []
  webhookLogs : List WebhookLog := []
  emailLogs : List EmailLog := []
  enqueuedJobs : List EnqueuedJob := []
  nextId : Nat := 0
deriving Repr, DecidableEq

/-- Wall clock and calendar context of one request (`new Date()`,
`getFullYear`, and the year window used by `generateReceiptNumber`).
Times are epoch milliseconds. -/
structure Env where
  now : Int
  year : Nat
  yearStart : Int
  nextYearStart : Int
deriving Repr, DecidableEq

/-- Fresh generated id (cuid in the source). -/
def freshId (db : DB) : String × DB :=
  ("row_" ++ toString db.nextId, { db with nextId := db.nextId + 1 })

/-- Result of one stateful operation: normal return or a thrown JS error. -/
inductive Outc (α : Type) where
  | ok (a : α)
  | thrown (msg : String)
deriving Repr, DecidableEq

/-- Sequencing: a thrown error short-circuits but keeps the state reached. -/
def stepBind {α β : Type} (r : Outc α × DB) (f : α → DB → Outc β × DB) :
    Outc β × DB :=
  match r with
  | (.thrown e, db) => (.thrown e, db)
  | (.ok a, db) => f a db

/-- Model of `prisma.$transaction`: on a throw inside the callback every write is
rolled back; on success the writes are kept. -/
def runTx {α : Type} (body : DB → Outc α × DB) (db : DB) : Outc α × DB :=
  match body db with
  | (.thrown e, _) => (.thrown e, db)
  | (.ok a, db1) => (.ok a, db1)

/-! ## Queue manager (`src/queues/queue-manager.ts`) -/

/-- The `defaultJobOptions` of one Bull queue. -/
structure QueueDefaults where
  attempts : Nat
  backoffType : Option String := none
  backoffDelayMs : Option Nat := none
  removeOnComplete : Nat
  removeOnFail : Option Nat := none
deriving Repr, DecidableEq

/-- Model of `QueueManager.initializeQueues`: the four queues and their
`defaultJobOptions`. -/
def initializeQueues : List (String × QueueDefaults) :=
  [("receipt-generation",
     { attempts := 3, backoffType := some "exponential",
       backoffDelayMs := some 60000, removeOnComplete := 100 }),
   ("cloudinary-upload",
     { attempts := 5, backoffType := some "exponential",
       backoffDelayMs := some 120000, removeOnComplete := 100 }),
   ("email-delivery",
     { attempts := 5, backoffType := some "exponential",
       backoffDelayMs := some 120000, removeOnComplete := 100 }),
   ("recovery-scan",
     { attempts := 1, removeOnComplete := 10, removeOnFail := some 10 })]

/-- Model of `queue.add(data, opts)`: per-job options override the queue defaults
(Bull merges `{...defaultJobOptions, ...opts}`); missing queue throws as in
the enqueue helpers. -/
def queueAdd (queueName : String) (data : JobData) (optAttempts : Option Nat)
    (optBackoffType : Option String) (optBackoffDelay : Option Nat)
    (db : DB) : Outc EnqueuedJob × DB :=
  match initializeQueues.find? (fun q => q.1 == queueName) with
  | none => (.thrown (queueName ++ " queue not found"), db)
  | some (_, defaults) =>
    let (jid, db1) := freshId db
    let job : EnqueuedJob :=
      { id := jid, queueName := queueName,
        dataReceiptId := data.receiptId, dataOrderId := data.orderId,
        dataTransactionId := data.transactionId, dataUserId := data.userId,
        isRecovery := data.isRecovery,
        attempts := optAttempts.getD defaults.attempts,
        backoffType := optBackoffType.orElse (fun _ => defaults.backoffType),
        backoffDelayMs := optBackoffDelay.orElse (fun _ => defaults.backoffDelayMs) }
    (.ok job, { db1 with enqueuedJobs := db1.enqueuedJobs ++ [job] })

/-- Model of `QueueManager.enqueueReceiptGeneration` (live version): passes per-job
`attempts: 3` and exponential backoff from 2000 ms. -/
def enqueueReceiptGeneration (data : JobData) (db : DB) : Outc EnqueuedJob × DB :=
  queueAdd "receipt-generation" data (some 3) (some "exponential") (some 2000) db

/-- Model of `QueueManager.enqueueCloudinaryUpload` (live version): passes per-job
`attempts: 3` and exponential backoff from 2000 ms. -/
def enqueueCloudinaryUpload (data : JobData) (db : DB) : Outc EnqueuedJob × DB :=
  queueAdd "cloudinary-upload" data (some 3) (some "exponential") (some 2000) db

/-- Model of `QueueManager.enqueueEmailDelivery` (live version): passes per-job
`attempts: 3` and exponential backoff from 2000 ms. -/
def enqueueEmailDelivery (data : JobData) (db : DB) : Outc EnqueuedJob × DB :=
  queueAdd "email-delivery" data (some 3) (some "exponential") (some 2000) db

/-! ## OrderService (`order.service.ts`) -/

def orderFindUnique (orderId : String) (db : DB) : Option Order :=
  db.orders.find? (fun o => o.id == orderId)

/-- The order fields selected by `validateForPayment`. -/
structure OrderSel where
  id : String
  status : OrderStatus
  total : Int
deriving Repr, DecidableEq

/-- The heterogeneous object returned by `OrderService.validateForPayment`. -/
structure OrderValidation where
  valid : Bool
  reason : Option String := none
  requiresRefund : Bool := false
  order : Option OrderSel := none
deriving Repr, DecidableEq

/-- Model of `OrderService.validateForPayment`: existence, not PAID, not CANCELLED,
then the amount security check. -/
def validateForPayment (orderId : String) (webhookAmount : Int) (db : DB) :
    OrderValidation :=
  match orderFindUnique orderId db with
  | none => { valid := false, reason := some "Order not found" }
  | some o =>
    if o.status = .PAID then
      { valid := false, reason := some "Order already paid" }
    else if o.status = .CANCELLED then
      { valid := false, reason := some "Order was cancelled", requiresRefund := true }
    else if o.total ≠ webhookAmount then
      { valid := false,
        reason := some ("Amount mismatch: order total " ++ toString o.total ++
          " but webhook reported " ++ toString webhookAmount) }
    else { valid := true, order := some ⟨o.id, o.status, o.total⟩ }

/-- Model of `OrderService.findById`: throws when the order is missing. -/
def orderFindById (orderId : String) (db : DB) : Outc Order :=
  match orderFindUnique orderId db with
  | none => .thrown ("Order not found: " ++ orderId)
  | some o => .ok o

/-- Model of `OrderService.markPaymentFailed`: a plain `prisma.order.update` that sets
`status = PAYMENT_FAILED` with no precondition on the current status
(Prisma throws only when the row does not exist). -/
def markPaymentFailed (orderId : String) (db : DB) : Outc Order × DB :=
  match orderFindUnique orderId db with
  | none => (.thrown "Record to update not found", db)
  | some o =>
    (.ok { o with status := .PAYMENT_FAILED },
     { db with orders := db.orders.map (fun x =>
         if x.id == orderId then { x with status := .PAYMENT_FAILED } else x) })

/-! ## PaymentService (`payment.service.ts`) -/

structure PayParams where
  orderId : String
  transactionId : String
  amount : Int
  currency : String
  webhookLogId : String
deriving Repr, DecidableEq

structure PayResult where
  userId : String
  receiptId : String
  transactionId : String
deriving Repr, DecidableEq

/-- Model of `PaymentService.createOrderSnapshot`. -/
def createOrderSnapshot (o : Order) : OrderSnapshot :=
  { orderNumber := o.orderNumber, items := o.items, subtotal := o.subtotal,
    tax := o.tax, shipping := o.shipping, discount := o.discount,
    total := o.total, shippingAddress := o.shippingAddress }

/-- Model of `PaymentService.generateReceiptNumber`: count this years receipts of the
store and format `RCP-YYYY-NNNNNN`. -/
def generateReceiptNumber (env : Env) (storeId : String) (db : DB) : String :=
  let count := (db.receipts.filter (fun r =>
    r.storeId == storeId && decide (env.yearStart ≤ r.createdAt) &&
    decide (r.createdAt < env.nextYearStart))).length
  "RCP-" ++ toString env.year ++ "-" ++ zeroPad 6 (toString (count + 1))

/-- Body of the `recordSuccessfulPayment` transaction: re-read the order
(existence only), insert the SUCCEEDED `PaymentTransaction`, set the order
PAID, compute the receipt number, insert the PENDING `Receipt`. Unique
constraints (`PaymentTransaction` provider+transactionId,
`Receipt.receiptNumber`, `Receipt.transactionId`) throw as in Prisma. -/
def recordSuccessfulPaymentTx (env : Env) (p : PayParams) (db : DB) :
    Outc PayResult × DB :=
  match orderFindUnique p.orderId db with
  | none => (.thrown ("Order " ++ p.orderId ++ " not found"), db)
  | some order =>
    match db.users.find? (fun u => u.id == order.userId) with
    | none => (.thrown ("User " ++ order.userId ++ " not found"), db)
    | some user =>
      if db.paymentTransactions.any (fun t =>
          t.provider == "paystack" && t.transactionId == p.transactionId) then
        (.thrown "Unique constraint failed: PaymentTransaction.transactionId", db)
      else
        let (txRowId, db1) := freshId db
        let txRow : PaymentTransaction :=
          { id := txRowId, transactionId := p.transactionId, orderId := p.orderId,
            userId := order.userId, storeId := order.storeId,
            provider := "paystack", amount := p.amount, currency := p.currency,
            status := .SUCCEEDED, webhookLogId := p.webhookLogId,
            succeededAt := some env.now }
        let db2 := { db1 with
          paymentTransactions := db1.paymentTransactions ++ [txRow] }
        let db3 := { db2 with orders := db2.orders.map (fun x =>
          if x.id == p.orderId then
            { x with status := .PAID, paidAt := some env.now } else x) }
        let receiptNumber := generateReceiptNumber env order.storeId db3
        if db3.receipts.any (fun r => r.receiptNumber == receiptNumber) then
          (.thrown "Unique constraint failed: Receipt.receiptNumber", db3)
        else if db3.receipts.any (fun r => r.transactionId == txRowId) then
          (.thrown "Unique constraint failed: Receipt.transactionId", db3)
        else
          let (rid, db4) := freshId db3
          let receipt : Receipt :=
            { id := rid, receiptNumber := receiptNumber, orderId := p.orderId,
              transactionId := txRowId, userId := order.userId,
              storeId := order.storeId,
              orderSnapshot := createOrderSnapshot order,
              paymentMethod := "card", paidAt := env.now, amount := p.amount,
              currency := p.currency, emailRecipient := user.email,
              status := .PENDING, createdAt := env.now }
          (.ok { userId := order.userId, receiptId := rid,
                 transactionId := txRowId },
           { db4 with receipts := db4.receipts ++ [receipt] })

/-- Model of `PaymentService.recordSuccessfulPayment`: wraps the body inside
`prisma.$transaction`. -/
def recordSuccessfulPayment (env : Env) (p : PayParams) (db : DB) :
    Outc PayResult × DB :=
  runTx (recordSuccessfulPaymentTx env p) db

structure FailParams where
  orderId : String
  transactionId : String
  webhookLogId : String
deriving Repr, DecidableEq

/-- Model of `PaymentService.recordFailedPayment`: read the order, insert a FAILED
`PaymentTransaction` (amount from the order, currency NGN). -/
def recordFailedPayment (env : Env) (p : FailParams) (db : DB) :
    Outc Unit × DB :=
  match orderFindUnique p.orderId db with
  | none => (.thrown ("Order " ++ p.orderId ++ " not found"), db)
  | some order =>
    if db.paymentTransactions.any (fun t =>
        t.provider == "paystack" && t.transactionId == p.transactionId) then
      (.thrown "Unique constraint failed: PaymentTransaction.transactionId", db)
    else
      let (txRowId, db1) := freshId db
      let txRow : PaymentTransaction :=
        { id := txRowId, transactionId := p.transactionId, orderId := p.orderId,
          userId := order.userId, storeId := order.storeId,
          provider := "paystack", amount := order.total, currency := "NGN",
          status := .FAILED, webhookLogId := p.webhookLogId,
          failedAt := some env.now, failureReason := some "Payment declined" }
      (.ok (), { db1 with paymentTransactions := db1.paymentTransactions ++ [txRow] })

/-! ## ReceiptService (`receipt.service.ts`) -/

/-- Model of `ReceiptService.findByTransactionId` (idempotency check). -/
def findByTransactionId (transactionId : String) (db : DB) : Option Receipt :=
  db.receipts.find? (fun r => r.transactionId == transactionId)

/-- Modelled from the spec: `ReceiptService.findById` is called by
`handlePaymentSuccess` but its definition is absent from the source; the
spec treats it as a simple lookup by id (a missing receipt surfaces as a
thrown error either way, since the caller dereferences the result). -/
def receiptFindById (receiptId : String) (db : DB) : Outc Receipt :=
  match db.receipts.find? (fun r => r.id == receiptId) with
  | none => .thrown ("Receipt not found: " ++ receiptId)
  | some r => .ok r

/-- Model of `ReceiptService.markCompleted`: load the three stage flags; silently
return when the receipt is missing; set `status = COMPLETED` exactly when
all three flags hold and the status is not already COMPLETED. -/
def markCompleted (receiptId : String) (db : DB) : DB :=
  match db.receipts.find? (fun r => r.id == receiptId) with
  | none => db
  | some r =>
    if r.pdfGenerated && r.cloudinaryUploaded && r.emailSent &&
        decide (r.status ≠ .COMPLETED) then
      { db with receipts := db.receipts.map (fun x =>
          if x.id == receiptId then { x with status := .COMPLETED } else x) }
    else db

/-! ## WebhookService (`webhook.service.ts`) -/

/-- Model of `WebhookService.getWebhookSecret`: only the mock provider has an entry in
the secrets record; every other provider falls back to the empty string. -/
def getWebhookSecret (provider : String) : String :=
  if provider = "mock" then "mock_secret_for_testing" else ""

/-- Model of `JSON.stringify` of the normalized payload object, in field order. -/
def jsonStringifyPayload (p : ParsedPayload) : String :=
  "\x7b\"transaction_id\":\"" ++ p.transaction_id ++
  "\",\"order_id\":\"" ++ p.order_id ++
  "\",\"status\":\"" ++ p.status ++
  "\",\"amount\":" ++ toString p.amount ++
  ",\"currency\":\"" ++ p.currency ++ "\"\x7d"

/-- Model of `WebhookService.validateSignature`: mock bypasses; a falsy signature
fails fast; otherwise compare the hex digest of
`HMAC-SHA256(secret[provider], JSON.stringify(payload))` against the given
signature with `crypto.timingSafeEqual` over `Buffer.from(_, "hex")` —
which throws when the decoded lengths differ. -/
def validateSignature (provider : String) (payload : ParsedPayload)
    (signature : Option String) : Except String Bool :=
  if provider = "mock" then .ok true
  else
    match signature with
    | none => .ok false
    | some sig =>
      if sig = "" then .ok false
      else
        let secret := getWebhookSecret provider
        let expected := hmacSha256Hex secret (strBytes (jsonStringifyPayload payload))
        timingSafeEqual (hexDecode sig) (hexDecode expected)

/-- Model of `WebhookService.checkDuplicate`. -/
def checkDuplicate (webhookId : String) (db : DB) : Bool :=
  (db.webhookLogs.find? (fun w => w.webhookId == webhookId)).isSome

/-- Model of `JSON.parse(payload)` where `payload` is the parsed request body: the
argument is an object, so it is coerced to the string `[object Object]`,
which is not JSON — the call always throws a SyntaxError. -/
def jsonParseBody (_payload : ParsedPayload) : Except String ParsedPayload :=
  .error "Unexpected token o in JSON at position 1"

/-- Model of `WebhookService.parsePayload` as applied to a value of the normalized
shape: the paystack branch dereferences `payload.data.object`, which is
`undefined` on this shape, so it throws a TypeError; the default branch is
the identity mapping over the canonical keys. -/
def parsePayload (provider : String) (payload : ParsedPayload) :
    Except String ParsedPayload :=
  if provider = "paystack" then
    .error "Cannot read properties of undefined (reading object)"
  else .ok payload

/-- Arguments of `WebhookService.logWebhook`. -/
structure LogArgs where
  webhookId : String
  provider : String
  eventType : Option String := none
  payload : ParsedPayload
  signature : Option String := none
  signatureValid : Bool
  parsedData : Option ParsedPayload := none
  processed : Option Bool := none
  outcome : Option String := none
deriving Repr, DecidableEq

/-- Model of `WebhookService.logWebhook`: insert the audit row with a 3-day TTL; the
unique index on `webhookId` throws on a duplicate. -/
def logWebhook (env : Env) (a : LogArgs) (db : DB) : Outc WebhookLog × DB :=
  if checkDuplicate a.webhookId db then
    (.thrown "Unique constraint failed: WebhookLog.webhookId", db)
  else
    let (lid, db1) := freshId db
    let log : WebhookLog :=
      { id := lid, webhookId := a.webhookId, provider := a.provider,
        eventType := a.eventType.getD "unknown", rawPayload := a.payload,
        signature := a.signature, signatureValid := a.signatureValid,
        processed := a.processed.getD false,
        orderId := a.parsedData.map (fun d => d.order_id),
        transactionId := a.parsedData.map (fun d => d.transaction_id),
        amount := a.parsedData.map (fun d => d.amount),
        currency := a.parsedData.map (fun d => d.currency),
        paymentStatus := a.parsedData.map (fun d => d.status),
        outcome := a.outcome, expiresAt := env.now + 259200000 }
    (.ok log, { db1 with webhookLogs := db1.webhookLogs ++ [log] })

/-- Model of `WebhookService.markWebhookProcessed`: set processed with the uppercased
outcome. -/
def markWebhookProcessed (env : Env) (webhookLogId : String) (outcome : String)
    (db : DB) : Outc Unit × DB :=
  if (db.webhookLogs.find? (fun w => w.id == webhookLogId)).isSome then
    (.ok (), { db with webhookLogs := db.webhookLogs.map (fun w =>
        if w.id == webhookLogId then
          { w with processed := true, processedAt := some env.now,
                   outcome := some (toUpperStr outcome) } else w) })
  else (.thrown "Record to update not found", db)

/-- Model of `WebhookService.markWebhookFailed`. -/
def markWebhookFailed (webhookLogId : String) (errorMessage : String)
    (db : DB) : Outc Unit × DB :=
  if (db.webhookLogs.find? (fun w => w.id == webhookLogId)).isSome then
    (.ok (), { db with webhookLogs := db.webhookLogs.map (fun w =>
        if w.id == webhookLogId then
          { w with processed := false, outcome := some "PROCESSING_FAILED",
                   errorMessage := some errorMessage,
                   processingAttempts := w.processingAttempts + 1 } else w) })
  else (.thrown "Record to update not found", db)

/-- The `data` payload of a `ServiceResult`. -/
inductive ResultData where
  | webhookRef (webhookId : String)
  | orderRef (orderId : String)
  | receiptRef (receiptId : String)
  | failureRef (orderId transactionId : String)
  | processedData (orderId orderNumber transactionId receiptId
      receiptNumber pdfJobId : String)
deriving Repr, DecidableEq

structure ServiceResult where
  success : Bool
  type : String
  message : Option String := none
  data : Option ResultData := none
deriving Repr, DecidableEq

/-- Model of `WebhookService.handlePaymentSuccess`: validate the order, idempotency
check on the transaction id, atomic commit, enqueue the render job, then
read back order and receipt for the response. -/
def handlePaymentSuccess (env : Env) (p : PayParams) (db : DB) :
    Outc ServiceResult × DB :=
  let v := validateForPayment p.orderId p.amount db
  if v.valid = false then
    (.ok { success := true, type := "validation_failed", message := v.reason,
           data := some (.orderRef p.orderId) }, db)
  else
    match findByTransactionId p.transactionId db with
    | some existing =>
      (.ok { success := true, type := "already_processed",
             message := some "Receipt already generated for this transaction",
             data := some (.receiptRef existing.id) }, db)
    | none =>
      stepBind (recordSuccessfulPayment env p db) fun pay db1 =>
      stepBind (enqueueReceiptGeneration
        { receiptId := some pay.receiptId, orderId := some p.orderId,
          transactionId := some p.transactionId, userId := some pay.userId }
        db1) fun pdfJob db2 =>
      match orderFindById p.orderId db2 with
      | .thrown e => (.thrown e, db2)
      | .ok order =>
        match receiptFindById pay.receiptId db2 with
        | .thrown e => (.thrown e, db2)
        | .ok receipt =>
          (.ok { success := true, type := "processed",
                 message := some "Payment processed and receipt generation queued",
                 data := some (.processedData p.orderId order.orderNumber
                   p.transactionId pay.receiptId receipt.receiptNumber
                   pdfJob.id) }, db2)

/-- Model of `WebhookService.handlePaymentFailure`: record the failed transaction,
then unconditionally mark the order PAYMENT_FAILED. -/
def handlePaymentFailure (env : Env) (p : FailParams) (db : DB) :
    Outc ServiceResult × DB :=
  stepBind (recordFailedPayment env p db) fun _ db1 =>
  stepBind (markPaymentFailed p.orderId db1) fun _ db2 =>
  (.ok { success := true, type := "payment_failed",
         message := some "Payment failure recorded",
         data := some (.failureRef p.orderId p.transactionId) }, db2)

/-- Arguments of `WebhookService.processParsedWebhook`. -/
structure ParsedArgs where
  webhookId : String
  provider : String
  parsedData : ParsedPayload
  signature : Option String := none
  signatureValid : Bool
deriving Repr, DecidableEq

/-- Model of `WebhookService.processParsedWebhook`: duplicate gate first, then the
audit row, then dispatch on the parsed status (mock processes like every
provider); unknown statuses are logged and ignored. -/
def processParsedWebhook (env : Env) (a : ParsedArgs) (db : DB) :
    Outc ServiceResult × DB :=
  if checkDuplicate a.webhookId db then
    (.ok { success := true, type := "duplicate",
           message := some "Webhook already processed",
           data := some (.webhookRef a.webhookId) }, db)
  else
    stepBind (logWebhook env
      { webhookId := a.webhookId, provider := a.provider,
        eventType := some ("payment." ++ a.parsedData.status),
        payload := a.parsedData, signature := a.signature,
        signatureValid := a.signatureValid, parsedData := some a.parsedData,
        processed := some false } db) fun log db1 =>
    if a.parsedData.status = "succeeded" then
      stepBind (handlePaymentSuccess env
        { orderId := a.parsedData.order_id,
          transactionId := a.parsedData.transaction_id,
          amount := a.parsedData.amount, currency := a.parsedData.currency,
          webhookLogId := log.id } db1) fun r db2 =>
      stepBind (markWebhookProcessed env log.id "success" db2) fun _ db3 =>
      (.ok r, db3)
    else if a.parsedData.status = "failed" then
      stepBind (handlePaymentFailure env
        { orderId := a.parsedData.order_id,
          transactionId := a.parsedData.transaction_id,
          webhookLogId := log.id } db1) fun r db2 =>
      stepBind (markWebhookProcessed env log.id "success" db2) fun _ db3 =>
      (.ok r, db3)
    else
      stepBind (markWebhookProcessed env log.id "validation_failed" db1)
        fun _ db2 =>
      (.ok { success := true, type := "ignored",
             message := some ("Webhook with status " ++ a.parsedData.status ++
               " was logged but not processed") }, db2)

/-- Model of `WebhookService.processPaymentWebhook` (live version): mock skips
verification; a falsy signature throws; an invalid signature is logged and
answered with a typed result; a valid one goes through `JSON.parse` of the
(object) body and provider-specific parsing before dispatch. -/
def processPaymentWebhook (env : Env) (provider webhookId : String)
    (payload : ParsedPayload) (signature : Option String) (db : DB) :
    Outc ServiceResult × DB :=
  if provider = "mock" then
    processParsedWebhook env
      { webhookId := webhookId, provider := provider, parsedData := payload,
        signatureValid := true } db
  else
    match signature with
    | none => (.thrown "No webhook signature", db)
    | some sig =>
      if sig = "" then (.thrown "No webhook signature", db)
      else
        match validateSignature provider payload (some sig) with
        | .error e => (.thrown e, db)
        | .ok false =>
          stepBind (logWebhook env
            { webhookId := webhookId, provider := provider, payload := payload,
              signature := some sig, signatureValid := false,
              outcome := some "VALIDATION_FAILED" } db) fun _ db1 =>
          (.ok { success := false, type := "invalid_signature",
                 message := some "Webhook signature validation failed" }, db1)
        | .ok true =>
          match jsonParseBody payload with
          | .error e => (.thrown e, db)
          | .ok rawParsed =>
            match parsePayload provider rawParsed with
            | .error e => (.thrown e, db)
            | .ok parsed =>
              processParsedWebhook env
                { webhookId := webhookId, provider := provider,
                  parsedData := parsed, signature := some sig,
                  signatureValid := true } db

/-! ## WebhookController (`webhook.controller.ts`) -/

inductive HttpResponse where
  | ok200 (body : ServiceResult)
  | err500
deriving Repr, DecidableEq

/-- Model of `WebhookController.handlePaymentWebhook`: a missing (or empty, falsy)
`x-webhook-id` header is synthesized from the timestamp; any thrown error is
answered with status 500, every service result with status 200. -/
def handlePaymentWebhook (env : Env) (provider : String)
    (signatureHeader webhookIdHeader : Option String)
    (payload : ParsedPayload) (db : DB) : HttpResponse × DB :=
  let webhookId :=
    match webhookIdHeader with
    | some w => if w = "" then "webhook_" ++ toString env.now else w
    | none => "webhook_" ++ toString env.now
  match processPaymentWebhook env provider webhookId payload signatureHeader db with
  | (.ok r, db1) => (.ok200 r, db1)
  | (.thrown _, db1) => (.err500, db1)

/-! ## EmailService (`email.service.ts`) -/

/-- A JS error object as inspected by `categorizeEmailError`
(`error.message` may be `undefined`). -/
structure JsError where
  message : Option String := none
  code : Option String := none
deriving Repr, DecidableEq

/-- Model of `EmailService.categorizeEmailError`: keyword and code classification into
invalid_email / server_error / rate_limit / attachment_too_large / unknown. -/
def categorizeEmailError (e : JsError) : String :=
  let message := toLowerStr (e.message.getD "")
  if strIncludes message "invalid" || strIncludes message "does not exist" ||
      e.code == some "EENVELOPE" then "invalid_email"
  else if strIncludes message "timeout" || strIncludes message "connection" ||
      e.code == some "ETIMEDOUT" || e.code == some "ECONNECTION" then
    "server_error"
  else if strIncludes message "rate limit" || strIncludes message "quota" then
    "rate_limit"
  else if strIncludes message "too large" || strIncludes message "size" then
    "attachment_too_large"
  else "unknown"

/-- Behaviour of the external transport (`emailProvider.send` together with
the PDF read) for one attempt: a provider message id, or a thrown error. -/
inductive SendOutcome where
  | delivered (messageId : String)
  | errored (e : JsError)
deriving Repr, DecidableEq

/-- Return value of `sendReceiptEmail` on the non-throwing paths. -/
inductive SendResult where
  | alreadySent (sentAt : Option Int)
  | sent (messageId : String)
deriving Repr, DecidableEq

/-- Subject composed by `composeReceiptEmail` (body rendering is template
substitution, out of scope per the spec). -/
def composeSubject (r : Receipt) : String :=
  "Your Receipt - Order " ++ r.orderSnapshot.orderNumber

def emailFrom : String := "receipts@yourstore.com"

/-- Model of `EmailService.sendReceiptEmail`: idempotency on `emailSent`; require the
PDF; on success set `emailSent` and log SENT; on failure increment the
attempt counter, log FAILED with the classification, set
`emailPermanentFailure` when the classification is invalid_email — and
rethrow the error in every failure case. -/
def sendReceiptEmail (env : Env) (outcome : SendOutcome) (receiptId : String)
    (db : DB) : Outc SendResult × DB :=
  match db.receipts.find? (fun r => r.id == receiptId) with
  | none => (.thrown ("Receipt " ++ receiptId ++ " not found"), db)
  | some receipt =>
    if receipt.emailSent then (.ok (.alreadySent receipt.emailSentAt), db)
    else if !(receipt.pdfGenerated && receipt.pdfLocalPath.isSome) then
      (.thrown ("PDF not generated for receipt " ++ receiptId), db)
    else
      match db.users.find? (fun u => u.id == receipt.userId) with
      | none => (.thrown ("User " ++ receipt.userId ++ " not found"), db)
      | some user =>
        match outcome with
        | .delivered messageId =>
          let db1 : DB := { db with receipts := db.receipts.map (fun x =>
            if x.id == receiptId then
              { x with emailSent := true, emailSentAt := some env.now,
                       emailSendAttempts := x.emailSendAttempts + 1 } else x) }
          let log : EmailLog :=
            { receiptId := receiptId, userId := receipt.userId,
              toAddr := user.email, fromAddr := emailFrom,
              subject := composeSubject receipt, status := .SENT,
              messageId := some messageId, sentAt := some env.now,
              expiresAt := env.now + 7776000000 }
          (.ok (.sent messageId), { db1 with emailLogs := db1.emailLogs ++ [log] })
        | .errored e =>
          let db1 : DB := { db with receipts := db.receipts.map (fun x =>
            if x.id == receiptId then
              { x with emailSendAttempts := x.emailSendAttempts + 1,
                       emailLastError := e.message } else x) }
          let category := categorizeEmailError e
          let log : EmailLog :=
            { receiptId := receiptId, userId := receipt.userId,
              toAddr := user.email, fromAddr := emailFrom,
              subject := "Receipt " ++ receipt.receiptNumber, status := .FAILED,
              attempts := some (receipt.emailSendAttempts + 1),
              errorCode := e.code, errorMessage := e.message,
              errorCategory := some category, lastAttemptAt := some env.now,
              expiresAt := env.now + 7776000000 }
          let db2 := { db1 with emailLogs := db1.emailLogs ++ [log] }
          let db3 :=
            if category = "invalid_email" then
              { db2 with receipts := db2.receipts.map (fun x =>
                  if x.id == receiptId then
                    { x with emailPermanentFailure := true } else x) }
            else db2
          (.thrown (e.message.getD ""), db3)

/-! ## RecoveryService (`recovery.service.ts`) -/

/-- Selection predicate of `recoverFailedGenerations` (15 minutes, cap 3). -/
def genStuckPred (env : Env) (r : Receipt) : Bool :=
  !r.pdfGenerated && decide (r.pdfGenerationAttempts < 3) &&
  decide (r.createdAt < env.now - 900000)

/-- Selection predicate of `recoverFailedUploads` (30 minutes, cap 5). -/
def uploadStuckPred (env : Env) (r : Receipt) : Bool :=
  r.pdfGenerated && !r.cloudinaryUploaded &&
  decide (r.cloudinaryUploadAttempts < 5) &&
  decide (r.createdAt < env.now - 1800000)

/-- Selection predicate of `recoverFailedEmails` (30 minutes, cap 5,
permanent failures excluded). -/
def emailStuckPred (env : Env) (r : Receipt) : Bool :=
  r.pdfGenerated && !r.emailSent && decide (r.emailSendAttempts < 5) &&
  !r.emailPermanentFailure && decide (r.createdAt < env.now - 1800000)

/-- The `findMany(..., take: 50)` of `recoverFailedGenerations`. -/
def stuckGenerations (env : Env) (db : DB) : List Receipt :=
  (db.receipts.filter (genStuckPred env)).take 50

/-- The `findMany(..., take: 50)` of `recoverFailedUploads`. -/
def stuckUploads (env : Env) (db : DB) : List Receipt :=
  (db.receipts.filter (uploadStuckPred env)).take 50

/-- The `findMany(..., take: 50)` of `recoverFailedEmails`. -/
def stuckEmails (env : Env) (db : DB) : List Receipt :=
  (db.receipts.filter (emailStuckPred env)).take 50

structure RecResults where
  requeued : Nat
  failed : Nat
deriving Repr, DecidableEq

/-- One iteration of the `recoverFailedGenerations` loop: re-enqueue with
`isRecovery: true`, counting the per-receipt try/catch outcome. -/
def genRecoveryStep (acc : RecResults × DB) (r : Receipt) : RecResults × DB :=
  match enqueueReceiptGeneration
    { receiptId := some r.id, orderId := some r.orderId,
      transactionId := some r.transactionId, userId := some r.userId,
      isRecovery := true } acc.2 with
  | (.ok _, d2) => ({ acc.1 with requeued := acc.1.requeued + 1 }, d2)
  | (.thrown _, d2) => ({ acc.1 with failed := acc.1.failed + 1 }, d2)

/-- Model of `RecoveryService.recoverFailedGenerations`. -/
def recoverFailedGenerations (env : Env) (db : DB) : RecResults × DB :=
  (stuckGenerations env db).foldl genRecoveryStep
    ({ requeued := 0, failed := 0 }, db)

/-- One iteration of the `recoverFailedUploads` loop. -/
def uploadRecoveryStep (acc : RecResults × DB) (r : Receipt) : RecResults × DB :=
  match enqueueCloudinaryUpload
    { receiptId := some r.id, isRecovery := true } acc.2 with
  | (.ok _, d2) => ({ acc.1 with requeued := acc.1.requeued + 1 }, d2)
  | (.thrown _, d2) => ({ acc.1 with failed := acc.1.failed + 1 }, d2)

/-- Model of `RecoveryService.recoverFailedUploads`. -/
def recoverFailedUploads (env : Env) (db : DB) : RecResults × DB :=
  (stuckUploads env db).foldl uploadRecoveryStep
    ({ requeued := 0, failed := 0 }, db)

/-- One iteration of the `recoverFailedEmails` loop. -/
def emailRecoveryStep (acc : RecResults × DB) (r : Receipt) : RecResults × DB :=
  match enqueueEmailDelivery
    { receiptId := some r.id, isRecovery := true } acc.2 with
  | (.ok _, d2) => ({ acc.1 with requeued := acc.1.requeued + 1 }, d2)
  | (.thrown _, d2) => ({ acc.1 with failed := acc.1.failed + 1 }, d2)

/-- Model of `RecoveryService.recoverFailedEmails`. -/
def recoverFailedEmails (env : Env) (db : DB) : RecResults × DB :=
  (stuckEmails env db).foldl emailRecoveryStep
    ({ requeued := 0, failed := 0 }, db)

/-! ## Helper lemmas -/

/-- Updating the rows matching a key and then looking the key up finds the
updated row: the workhorse for `prisma.update` reasoning. -/
theorem find?_map_update {α : Type} (key : α → String) (g : α → α)
    (hg : ∀ x, key (g x) = key x) (rid : String) (l : List α) :
    (l.map (fun x => if key x == rid then g x else x)).find?
      (fun r => key r == rid) =
    (l.find? (fun r => key r == rid)).map g := by
  induction l with
  | nil => simp
  | cons a t ih =>
    by_cases h : key a == rid
    · simp only [List.map_cons, List.find?_cons]
      rw [if_pos h]
      simp [hg, h]
    · simp only [List.map_cons, List.find?_cons]
      rw [if_neg h]
      simp only [h, cond_false]
      exact ih

/-- Any row transformation that preserves the key commutes with a keyed
lookup. -/
theorem find?_map_keypres {α : Type} (key : α → String) (rid : String)
    (f : α → α) (l : List α) (hf : ∀ x, key (f x) = key x) :
    (l.map f).find? (fun r => key r == rid) =
    (l.find? (fun r => key r == rid)).map f := by
  induction l with
  | nil => simp
  | cons a t ih =>
    simp only [List.map_cons, List.find?_cons, hf]
    by_cases h : key a == rid
    · simp [h]
    · simp only [h, cond_false]
      exact ih

/-! ## Concrete fixtures for witnesses and counterexamples -/

def sampleUser : User := { id := "u1", email := "jane@example.com" }

def sampleOrder (st : OrderStatus) : Order :=
  { id := "o1", orderNumber := "ORD-2026-000001", userId := "u1",
    storeId := "s1", items := "[]", subtotal := 10000, tax := 750,
    shipping := 0, discount := 0, total := 10750, status := st,
    createdAt := 1770000000000 }

def sampleEnv : Env :=
  { now := 1771000000000, year := 2026, yearStart := 1767225600000,
    nextYearStart := 1798761600000 }

def samplePayload : ParsedPayload :=
  { transaction_id := "t1", order_id := "o1", status := "succeeded",
    amount := 10750, currency := "NGN" }

def sampleLog : WebhookLog :=
  { id := "wl1", webhookId := "wh1", provider := "mock",
    eventType := "payment.succeeded", rawPayload := samplePayload,
    signatureValid := true, expiresAt := 1771259200000 }

def sampleReceipt : Receipt :=
  { id := "r1", receiptNumber := "RCP-2026-000001", orderId := "o1",
    transactionId := "row_42", userId := "u1", storeId := "s1",
    orderSnapshot :=
      { orderNumber := "ORD-2026-000001", items := "[]", subtotal := 10000,
        tax := 750, shipping := 0, discount := 0, total := 10750 },
    paymentMethod := "card", paidAt := 1770000003000, amount := 10750,
    currency := "NGN", emailRecipient := "jane@example.com",
    status := .PENDING, pdfGenerated := true,
    pdfLocalPath := some "uploads/receipts/r1.pdf",
    createdAt := 1770000003000 }

/-! ## Claim C4 -/

/-- C4: for a webhook delivery whose `webhookId` already exists in
`WebhookLog`, `processParsedWebhook` returns `{success: true,
type: "duplicate"}` and returns the store untouched: no `WebhookLog` row,
order, transaction or receipt mutation, and no enqueued job. -/
theorem processParsedWebhook_duplicate_no_mutation (env : Env)
    (a : ParsedArgs) (db : DB)
    (hdup : checkDuplicate a.webhookId db = true) :
    processParsedWebhook env a db =
      (.ok { success := true, type := "duplicate",
             message := some "Webhook already processed",
             data := some (.webhookRef a.webhookId) }, db) := by
  simp [processParsedWebhook, hdup]

def c4db : DB := { webhookLogs := [sampleLog], nextId := 1 }

def c4args : ParsedArgs :=
  { webhookId := "wh1", provider := "mock", parsedData := samplePayload,
    signatureValid := true }

/-- Witness for C4 at a store already holding webhook `wh1`. -/
theorem processParsedWebhook_duplicate_no_mutation_witness :
    checkDuplicate "wh1" c4db = true ∧
    processParsedWebhook sampleEnv c4args c4db =
      (.ok { success := true, type := "duplicate",
             message := some "Webhook already processed",
             data := some (.webhookRef "wh1") }, c4db) :=
  ⟨by decide, processParsedWebhook_duplicate_no_mutation sampleEnv c4args c4db
    (by decide)⟩

/-! ## Claim C6 -/

/-- C6: `markCompleted` sets `status = COMPLETED` exactly when
`pdfGenerated ∧ cloudinaryUploaded ∧ emailSent` hold and the status is not
already COMPLETED; in every other case — including a missing receipt — the
store is unchanged; and running it twice equals running it once. -/
theorem markCompleted_spec (db : DB) (receiptId : String) :
    (∀ r, db.receipts.find? (fun x => x.id == receiptId) = some r →
      ((r.pdfGenerated = true ∧ r.cloudinaryUploaded = true ∧
        r.emailSent = true ∧ r.status ≠ .COMPLETED) →
        markCompleted receiptId db =
          { db with receipts := db.receipts.map (fun x =>
              if x.id == receiptId then { x with status := .COMPLETED }
              else x) }) ∧
      (¬(r.pdfGenerated = true ∧ r.cloudinaryUploaded = true ∧
         r.emailSent = true ∧ r.status ≠ .COMPLETED) →
        markCompleted receiptId db = db)) ∧
    (db.receipts.find? (fun x => x.id == receiptId) = none →
      markCompleted receiptId db = db) ∧
    markCompleted receiptId (markCompleted receiptId db) =
      markCompleted receiptId db := by
  refine ⟨fun r hf => ⟨fun hc => ?_, fun hc => ?_⟩, fun hf => ?_, ?_⟩
  · have hb : (r.pdfGenerated && r.cloudinaryUploaded && r.emailSent &&
        decide (r.status ≠ .COMPLETED)) = true := by
      simp [hc.1, hc.2.1, hc.2.2.1, hc.2.2.2]
    unfold markCompleted
    rw [hf]
    exact if_pos hb
  · have hb : ¬((r.pdfGenerated && r.cloudinaryUploaded && r.emailSent &&
        decide (r.status ≠ .COMPLETED)) = true) := by
      intro htrue
      apply hc
      simpa [Bool.and_eq_true, decide_eq_true_eq, and_assoc] using htrue
    unfold markCompleted
    rw [hf]
    exact if_neg hb
  · unfold markCompleted
    rw [hf]
  · cases hf : db.receipts.find? (fun x => x.id == receiptId) with
    | none =>
      have h1 : markCompleted receiptId db = db := by
        unfold markCompleted
        rw [hf]
      rw [h1]
      exact h1
    | some r =>
      by_cases hb : (r.pdfGenerated && r.cloudinaryUploaded && r.emailSent &&
          decide (r.status ≠ .COMPLETED)) = true
      · have h1 : markCompleted receiptId db =
            { db with receipts := db.receipts.map (fun x =>
                if x.id == receiptId then { x with status := .COMPLETED }
                else x) } := by
          unfold markCompleted
          rw [hf]
          exact if_pos hb
        have hfind :
            (db.receipts.map (fun x =>
              if x.id == receiptId then { x with status := .COMPLETED }
              else x)).find? (fun x => x.id == receiptId) =
            (db.receipts.find? (fun x => x.id == receiptId)).map
              (fun x => { x with status := ReceiptStatus.COMPLETED }) :=
          find?_map_update (fun x => x.id)
            (fun x => { x with status := ReceiptStatus.COMPLETED })
            (fun _ => rfl) receiptId db.receipts
        have h2 : markCompleted receiptId
            { db with receipts := db.receipts.map (fun x =>
                if x.id == receiptId then { x with status := .COMPLETED }
                else x) } =
            { db with receipts := db.receipts.map (fun x =>
                if x.id == receiptId then { x with status := .COMPLETED }
                else x) } := by
          unfold markCompleted
          rw [show ({ db with receipts := db.receipts.map (fun x =>
              if x.id == receiptId then { x with status := .COMPLETED }
              else x) } : DB).receipts =
            db.receipts.map (fun x =>
              if x.id == receiptId then { x with status := .COMPLETED }
              else x) from rfl, hfind, hf]
          exact if_neg (by simp)
        rw [h1]
        exact h2
      · have h1 : markCompleted receiptId db = db := by
          unfold markCompleted
          rw [hf]
          exact if_neg hb
        rw [h1]
        exact h1

def c6receipt : Receipt :=
  { sampleReceipt with cloudinaryUploaded := true, emailSent := true }

def c6db : DB := { receipts := [c6receipt] }

/-- Witness for C6: a receipt with all three flags set is promoted to
COMPLETED. -/
theorem markCompleted_spec_witness :
    c6db.receipts.find? (fun x => x.id == "r1") = some c6receipt ∧
    markCompleted "r1" c6db =
      { c6db with receipts := c6db.receipts.map (fun x =>
          if x.id == "r1" then { x with status := .COMPLETED } else x) } :=
  ⟨by decide,
   ((markCompleted_spec c6db "r1").1 c6receipt (by decide)).1 (by decide)⟩

/-! ## Claim C7 -/

/-- C7 counterexample: the queue defaults do say 5 attempts with 120 s
exponential backoff for `cloudinary-upload` and `email-delivery` (and 3
with 60 s for `receipt-generation`), but a job actually enqueued through
the live helpers carries `attempts = 3` and a 2000 ms backoff — the per-job
options override the defaults, so the claimed options do not hold for any
enqueued job. -/
theorem enqueue_options_cex :
    ((initializeQueues.find? (fun q => q.1 == "cloudinary-upload")).map
      (fun q => (q.2.attempts, q.2.backoffDelayMs)) = some (5, some 120000)) ∧
    ((initializeQueues.find? (fun q => q.1 == "email-delivery")).map
      (fun q => (q.2.attempts, q.2.backoffDelayMs)) = some (5, some 120000)) ∧
    ((initializeQueues.find? (fun q => q.1 == "receipt-generation")).map
      (fun q => (q.2.attempts, q.2.backoffDelayMs)) = some (3, some 60000)) ∧
    ((enqueueCloudinaryUpload { receiptId := some "r1" } {}).2.enqueuedJobs.map
      (fun j => (j.attempts, j.backoffType, j.backoffDelayMs)) =
      [(3, some "exponential", some 2000)]) ∧
    ((enqueueEmailDelivery { receiptId := some "r1" } {}).2.enqueuedJobs.map
      (fun j => (j.attempts, j.backoffType, j.backoffDelayMs)) =
      [(3, some "exponential", some 2000)]) ∧
    ((enqueueReceiptGeneration { receiptId := some "r1" } {}).2.enqueuedJobs.map
      (fun j => (j.attempts, j.backoffType, j.backoffDelayMs)) =
      [(3, some "exponential", some 2000)]) := by
  decide

/-- C7 amended: the queues are initialized with `defaultJobOptions`
attempts 3 / 60 s (receipt-generation) and 5 / 120 s (cloudinary-upload and
email-delivery), but every job enqueued through `enqueueReceiptGeneration`,
`enqueueCloudinaryUpload` and `enqueueEmailDelivery` passes per-job options
that override them, so the job is given 3 attempts with exponential backoff
starting at 2 seconds on all three queues. -/
theorem enqueue_options_amended (data : JobData) (db : DB) :
    (enqueueReceiptGeneration data db).2.enqueuedJobs = db.enqueuedJobs ++
      [{ id := "row_" ++ toString db.nextId, queueName := "receipt-generation",
         dataReceiptId := data.receiptId, dataOrderId := data.orderId,
         dataTransactionId := data.transactionId, dataUserId := data.userId,
         isRecovery := data.isRecovery, attempts := 3,
         backoffType := some "exponential", backoffDelayMs := some 2000 }] ∧
    (enqueueCloudinaryUpload data db).2.enqueuedJobs = db.enqueuedJobs ++
      [{ id := "row_" ++ toString db.nextId, queueName := "cloudinary-upload",
         dataReceiptId := data.receiptId, dataOrderId := data.orderId,
         dataTransactionId := data.transactionId, dataUserId := data.userId,
         isRecovery := data.isRecovery, attempts := 3,
         backoffType := some "exponential", backoffDelayMs := some 2000 }] ∧
    (enqueueEmailDelivery data db).2.enqueuedJobs = db.enqueuedJobs ++
      [{ id := "row_" ++ toString db.nextId, queueName := "email-delivery",
         dataReceiptId := data.receiptId, dataOrderId := data.orderId,
         dataTransactionId := data.transactionId, dataUserId := data.userId,
         isRecovery := data.isRecovery, attempts := 3,
         backoffType := some "exponential", backoffDelayMs := some 2000 }] ∧
    (initializeQueues.map (fun q => (q.1, q.2.attempts, q.2.backoffDelayMs)) =
      [("receipt-generation", 3, some 60000),
       ("cloudinary-upload", 5, some 120000),
       ("email-delivery", 5, some 120000),
       ("recovery-scan", 1, none)]) := by
  refine ⟨?_, ?_, ?_, by decide⟩ <;>
    simp [enqueueReceiptGeneration, enqueueCloudinaryUpload,
      enqueueEmailDelivery, queueAdd, initializeQueues, freshId, Option.getD,
      Option.orElse]

/-! ## Claim C9 -/

theorem sha256_length (msg : List Nat) : (sha256 msg).length = 32 := by
  simp [sha256, hash8Bytes, wordBytes]

theorem bytesToHexData_length (l : List Nat) :
    (bytesToHexData l).length = 2 * l.length := by
  induction l with
  | nil => simp [bytesToHexData]
  | cons b t ih =>
    simp only [bytesToHexData, List.flatMap_cons] at ih ⊢
    simp [ih]
    omega

theorem hmacSha256Hex_ne_empty (key : String) (msg : List Nat) :
    hmacSha256Hex key msg ≠ "" := by
  intro h
  have hd : (hmacSha256Hex key msg).data = [] := by rw [h]
  rw [hmacSha256Hex, bytesToHex] at hd
  have hlen : (bytesToHexData (hmacSha256 (strBytes key) msg)).length = 64 := by
    rw [bytesToHexData_length]
    rw [show (hmacSha256 (strBytes key) msg).length = 32 from sha256_length _]
  rw [show (String.mk (bytesToHexData (hmacSha256 (strBytes key) msg))).data =
    bytesToHexData (hmacSha256 (strBytes key) msg) from rfl] at hd
  rw [hd] at hlen
  simp at hlen

theorem timingSafeEqual_self (a : List Nat) : timingSafeEqual a a = .ok true := by
  simp [timingSafeEqual]

/-- C9: every provider other than "mock" has no configured webhook secret,
so `getWebhookSecret` falls back to the empty string and the expected digest
is keyed with it: for every payload, the hex digest of
`HMAC-SHA256("", JSON.stringify(payload))` is a signature that
`validateSignature` accepts for that provider. -/
theorem validateSignature_empty_secret_accepts (provider : String)
    (payload : ParsedPayload) (hmock : provider ≠ "mock") :
    getWebhookSecret provider = "" ∧
    validateSignature provider payload
      (some (hmacSha256Hex "" (strBytes (jsonStringifyPayload payload)))) =
      .ok true := by
  have hsecret : getWebhookSecret provider = "" := by
    unfold getWebhookSecret
    exact if_neg hmock
  refine ⟨hsecret, ?_⟩
  unfold validateSignature
  rw [if_neg hmock]
  dsimp only
  rw [if_neg (hmacSha256Hex_ne_empty "" (strBytes (jsonStringifyPayload payload)))]
  rw [hsecret]
  exact timingSafeEqual_self _

/-- Witness for C9 at provider "paystack" and the sample payload. -/
theorem validateSignature_empty_secret_accepts_witness :
    getWebhookSecret "paystack" = "" ∧
    validateSignature "paystack" samplePayload
      (some (hmacSha256Hex "" (strBytes (jsonStringifyPayload samplePayload)))) =
      .ok true :=
  validateSignature_empty_secret_accepts "paystack" samplePayload (by decide)

/-! ## Claim C2 -/

/-- C2 counterexample: a signature of the wrong length ("abcd" decodes to 2
bytes while the expected digest has 32) makes `crypto.timingSafeEqual`
throw, so the intake answers this failed signature verification with 500,
not 2xx — and without writing any `WebhookLog` row. -/
theorem intake_wrong_length_signature_cex :
    validateSignature "paystack" samplePayload (some "abcd") =
      .error "Input buffers must have the same byte length" ∧
    handlePaymentWebhook sampleEnv "paystack" (some "abcd") (some "whA")
      samplePayload {} = (.err500, {}) := by
  constructor
  · decide
  · decide

/-- C2 amended: the 2xx-for-signature-failure contract holds only when the
given signature hex-decodes to the same length as the expected digest, so
that the constant-time comparison completes and returns false: then the
intake answers 200 with `invalid_signature`. A mock-provider duplicate
delivery is answered 200 with `duplicate`. A signature of the wrong length
or wrong hex content makes `timingSafeEqual` throw, which the controller
maps to 500. -/
theorem intake_typed_responses_amended :
    (∀ (env : Env) (provider sig webhookId : String) (payload : ParsedPayload)
       (db : DB),
      provider ≠ "mock" → sig ≠ "" → webhookId ≠ "" →
      validateSignature provider payload (some sig) = .ok false →
      checkDuplicate webhookId db = false →
      (handlePaymentWebhook env provider (some sig) (some webhookId) payload
        db).1 =
        .ok200 { success := false, type := "invalid_signature",
                 message := some "Webhook signature validation failed" }) ∧
    (∀ (env : Env) (sigHeader : Option String) (webhookId : String)
       (payload : ParsedPayload) (db : DB),
      webhookId ≠ "" →
      checkDuplicate webhookId db = true →
      (handlePaymentWebhook env "mock" sigHeader (some webhookId) payload
        db).1 =
        .ok200 { success := true, type := "duplicate",
                 message := some "Webhook already processed",
                 data := some (.webhookRef webhookId) }) := by
  constructor
  · intro env provider sig webhookId payload db hmock hsig hwid hvs hdup
    simp [handlePaymentWebhook, processPaymentWebhook, hmock, hsig, hwid, hvs,
      logWebhook, stepBind, hdup, freshId]
  · intro env sigHeader webhookId payload db hwid hdup
    simp [handlePaymentWebhook, processPaymentWebhook, processParsedWebhook,
      hwid, hdup]

def c2sig : String := String.mk (List.replicate 64 '0')

/-- Witness for C2 amended: a well-formed 32-byte wrong signature gets 200
`invalid_signature`; a duplicate mock delivery gets 200 `duplicate`. -/
theorem intake_typed_responses_amended_witness :
    ((handlePaymentWebhook sampleEnv "paystack" (some c2sig) (some "whB")
        samplePayload {}).1 =
      .ok200 { success := false, type := "invalid_signature",
               message := some "Webhook signature validation failed" }) ∧
    ((handlePaymentWebhook sampleEnv "mock" none (some "wh1") samplePayload
        c4db).1 =
      .ok200 { success := true, type := "duplicate",
               message := some "Webhook already processed",
               data := some (.webhookRef "wh1") }) :=
  ⟨intake_typed_responses_amended.1 sampleEnv "paystack" c2sig "whB"
      samplePayload {} (by decide) (by decide) (by decide) (by decide)
      (by decide),
   intake_typed_responses_amended.2 sampleEnv none "wh1" samplePayload c4db
      (by decide) (by decide)⟩

/-! ## Claim C10 -/

/-- C10: `markPaymentFailed` is an unconditional update, so a failed webhook
with a fresh `webhookId` moves the order to PAYMENT_FAILED regardless of its
current status — the hypotheses say nothing about `o.status`, so this holds
in particular for an order that is already PAID: PAID is not terminal. -/
theorem paid_not_terminal (env : Env) (a : ParsedArgs) (db : DB) (o : Order)
    (hdup : ¬∃ x ∈ db.webhookLogs, x.webhookId = a.webhookId)
    (hst : a.parsedData.status = "failed")
    (hord : db.orders.find? (fun x => x.id == a.parsedData.order_id) = some o)
    (htx : ¬∃ x ∈ db.paymentTransactions, x.provider = "paystack" ∧
      x.transactionId = a.parsedData.transaction_id) :
    (processParsedWebhook env a db).1 =
      .ok { success := true, type := "payment_failed",
            message := some "Payment failure recorded",
            data := some (.failureRef a.parsedData.order_id
              a.parsedData.transaction_id) } ∧
    ((processParsedWebhook env a db).2.orders.find?
      (fun x => x.id == a.parsedData.order_id)).map (fun x => x.status) =
      some .PAYMENT_FAILED := by
  simp only [processParsedWebhook, logWebhook, handlePaymentFailure,
    recordFailedPayment, markPaymentFailed, markWebhookProcessed,
    orderFindUnique, checkDuplicate, stepBind, freshId]
  simp [hdup, hst, hord, htx, List.find?_append]
  refine ⟨o, ?_, ?_⟩
  · have hcomp : ((fun x : Order => x.id == a.parsedData.order_id) ∘ fun x =>
        if x.id = a.parsedData.order_id then
          { x with status := OrderStatus.PAYMENT_FAILED } else x) =
        (fun x : Order => x.id == a.parsedData.order_id) := by
      funext x
      by_cases hx : x.id = a.parsedData.order_id <;> simp [hx]
    rw [hcomp]
    exact hord
  · have ho := List.find?_some hord
    simp only [beq_iff_eq] at ho
    simp [ho]

def c10order : Order := sampleOrder .PAID

def c10db : DB := { users := [sampleUser], orders := [c10order] }

def c10args : ParsedArgs :=
  { webhookId := "wh9", provider := "mock",
    parsedData := { samplePayload with status := "failed" },
    signatureValid := true }

/-- Witness for C10 at an order that is already PAID. -/
theorem paid_not_terminal_witness :
    c10order.status = .PAID ∧
    (processParsedWebhook sampleEnv c10args c10db).1 =
      .ok { success := true, type := "payment_failed",
            message := some "Payment failure recorded",
            data := some (.failureRef "o1" "t1") } ∧
    ((processParsedWebhook sampleEnv c10args c10db).2.orders.find?
      (fun x => x.id == "o1")).map (fun x => x.status) =
      some .PAYMENT_FAILED :=
  ⟨by decide,
   paid_not_terminal sampleEnv c10args c10db c10order (by decide) (by decide)
     (by decide) (by decide)⟩

/-! ## Claim C5 -/

/-- C5: a succeeded webhook whose amount differs from the order total of an
order that is still payable (neither PAID nor CANCELLED, so the validation
reaches the amount check) is answered `validation_failed` with the
amount-mismatch reason; the order keeps its status, and no
`PaymentTransaction`, `Receipt` or job is created — only the audit
`WebhookLog` is written. -/
theorem amount_mismatch_rejected (env : Env) (a : ParsedArgs) (db : DB)
    (o : Order)
    (hdup : ¬∃ x ∈ db.webhookLogs, x.webhookId = a.webhookId)
    (hst : a.parsedData.status = "succeeded")
    (hord : db.orders.find? (fun x => x.id == a.parsedData.order_id) = some o)
    (hpaid : o.status ≠ .PAID)
    (hcanc : o.status ≠ .CANCELLED)
    (hamt : o.total ≠ a.parsedData.amount) :
    (processParsedWebhook env a db).1 =
      .ok { success := true, type := "validation_failed",
            message := some ("Amount mismatch: order total " ++
              toString o.total ++ " but webhook reported " ++
              toString a.parsedData.amount),
            data := some (.orderRef a.parsedData.order_id) } ∧
    (processParsedWebhook env a db).2.orders = db.orders ∧
    (processParsedWebhook env a db).2.paymentTransactions =
      db.paymentTransactions ∧
    (processParsedWebhook env a db).2.receipts = db.receipts ∧
    (processParsedWebhook env a db).2.enqueuedJobs = db.enqueuedJobs := by
  simp only [processParsedWebhook, logWebhook, handlePaymentSuccess,
    validateForPayment, markWebhookProcessed, orderFindUnique, checkDuplicate,
    stepBind, freshId]
  simp [hdup, hst, hord, hpaid, hcanc, hamt, List.find?_append]

def c5order : Order := sampleOrder .PENDING_PAYMENT

def c5db : DB := { users := [sampleUser], orders := [c5order] }

def c5args : ParsedArgs :=
  { webhookId := "wh5", provider := "mock",
    parsedData := { samplePayload with amount := 9999 },
    signatureValid := true }

/-- Witness for C5: order total 10750, webhook reports 9999. -/
theorem amount_mismatch_rejected_witness :
    c5order.total = 10750 ∧ c5args.parsedData.amount = 9999 ∧
    ((processParsedWebhook sampleEnv c5args c5db).1 =
      .ok { success := true, type := "validation_failed",
            message := some ("Amount mismatch: order total " ++
              toString c5order.total ++ " but webhook reported " ++
              toString c5args.parsedData.amount),
            data := some (.orderRef "o1") } ∧
    (processParsedWebhook sampleEnv c5args c5db).2.orders = c5db.orders ∧
    (processParsedWebhook sampleEnv c5args c5db).2.paymentTransactions =
      c5db.paymentTransactions ∧
    (processParsedWebhook sampleEnv c5args c5db).2.receipts = c5db.receipts ∧
    (processParsedWebhook sampleEnv c5args c5db).2.enqueuedJobs =
      c5db.enqueuedJobs) :=
  ⟨by decide, by decide,
   amount_mismatch_rejected sampleEnv c5args c5db c5order (by decide)
     (by decide) (by decide) (by decide) (by decide) (by decide)⟩

/-! ## Claim C3 -/

def c3db : DB := { users := [sampleUser], orders := [sampleOrder .PAID] }

def c3params : PayParams :=
  { orderId := "o1", transactionId := "t3", amount := 10750,
    currency := "NGN", webhookLogId := "wl3" }

/-- C3 counterexample: the order of `c3db` is already PAID, yet
`recordSuccessfulPayment` commits anyway — the transaction re-reads the
order but never re-verifies `status ≠ PAID`, so the `PaymentTransaction`
and a second `Receipt` are inserted for an order that is already paid. -/
theorem recordSuccessfulPayment_no_recheck_cex :
    (c3db.orders.find? (fun x => x.id == "o1")).map (fun x => x.status) =
      some .PAID ∧
    (recordSuccessfulPayment sampleEnv c3params c3db).1 =
      .ok { userId := "u1", receiptId := "row_1", transactionId := "row_0" } ∧
    ((recordSuccessfulPayment sampleEnv c3params
      c3db).2).paymentTransactions.length = 1 ∧
    (recordSuccessfulPayment sampleEnv c3params c3db).2.receipts.length = 1 := by
  decide

/-- C3 amended: inside the commit transaction the order is re-read but only
its existence is checked — there is no `status ≠ PAID` re-verification, so
under the freshness side conditions the commit succeeds for an order of any
current status (the hypotheses say nothing about `o.status`), inserting the
`PaymentTransaction`, promoting the order to PAID and inserting the
`Receipt`. The guard against a double commit is only the pre-transaction
`validateForPayment` read and the unique constraints, not an in-transaction
status check. -/
theorem recordSuccessfulPayment_existence_only_check (env : Env)
    (p : PayParams) (db : DB) (o : Order) (u : User)
    (hord : db.orders.find? (fun x => x.id == p.orderId) = some o)
    (huser : db.users.find? (fun x => x.id == o.userId) = some u)
    (htx : ¬∃ x ∈ db.paymentTransactions, x.provider = "paystack" ∧
      x.transactionId = p.transactionId)
    (hrn : ¬∃ x ∈ db.receipts, x.receiptNumber =
      generateReceiptNumber env o.storeId db)
    (hrid : ¬∃ x ∈ db.receipts, x.transactionId =
      "row_" ++ toString db.nextId) :
    (recordSuccessfulPayment env p db).1 =
      .ok { userId := o.userId, receiptId := "row_" ++ toString (db.nextId + 1),
            transactionId := "row_" ++ toString db.nextId } ∧
    ((recordSuccessfulPayment env p db).2.orders.find?
      (fun x => x.id == p.orderId)).map (fun x => x.status) = some .PAID ∧
    (recordSuccessfulPayment env p db).2.paymentTransactions =
      db.paymentTransactions ++
      [{ id := "row_" ++ toString db.nextId, transactionId := p.transactionId,
         orderId := p.orderId, userId := o.userId, storeId := o.storeId,
         provider := "paystack", amount := p.amount, currency := p.currency,
         status := .SUCCEEDED, webhookLogId := p.webhookLogId,
         succeededAt := some env.now }] ∧
    (recordSuccessfulPayment env p db).2.receipts.length =
      db.receipts.length + 1 := by
  simp only [recordSuccessfulPayment, runTx, recordSuccessfulPaymentTx,
    orderFindUnique, freshId]
  simp only [generateReceiptNumber] at hrn
  simp [hord, huser, htx, hrn, hrid, generateReceiptNumber]
  have hcomp : ((fun x : Order => x.id == p.orderId) ∘ fun x =>
      if x.id = p.orderId then
        { x with status := OrderStatus.PAID, paidAt := some env.now }
      else x) =
      (fun x : Order => x.id == p.orderId) := by
    funext x
    by_cases hx : x.id = p.orderId <;> simp [hx]
  rw [hcomp]
  refine ⟨o, hord, ?_⟩
  have ho := List.find?_some hord
  simp only [beq_iff_eq] at ho
  simp [ho]

/-- Witness for C3 amended, at the PAID order of the counterexample store:
the commit succeeds although the order is already PAID. -/
theorem recordSuccessfulPayment_existence_only_check_witness :
    (recordSuccessfulPayment sampleEnv c3params c3db).1 =
      .ok { userId := "u1", receiptId := "row_1",
            transactionId := "row_0" } ∧
    ((recordSuccessfulPayment sampleEnv c3params c3db).2.orders.find?
      (fun x => x.id == "o1")).map (fun x => x.status) = some .PAID ∧
    (recordSuccessfulPayment sampleEnv c3params c3db).2.paymentTransactions =
      c3db.paymentTransactions ++
      [{ id := "row_0", transactionId := "t3", orderId := "o1",
         userId := "u1", storeId := "s1", provider := "paystack",
         amount := 10750, currency := "NGN", status := .SUCCEEDED,
         webhookLogId := "wl3", succeededAt := some sampleEnv.now }] ∧
    (recordSuccessfulPayment sampleEnv c3params c3db).2.receipts.length =
      c3db.receipts.length + 1 :=
  recordSuccessfulPayment_existence_only_check sampleEnv c3params c3db
    (sampleOrder .PAID) sampleUser (by decide) (by decide) (by decide)
    (by decide) (by decide)

/-! ## Claim C1 -/

def c1err : JsError :=
  { message := some "Recipient address does not exist", code := none }

def c1db : DB := { users := [sampleUser], receipts := [sampleReceipt] }

/-- C1 counterexample: a send failure classified as `invalid_email` DOES
set `emailPermanentFailure = true`, but `sendReceiptEmail` still rethrows
the error — the `throw error` at the end of the catch block is
unconditional, so the broker sees the failure and retries this job like any
other. -/
theorem sendReceiptEmail_invalid_email_rethrows_cex :
    categorizeEmailError c1err = "invalid_email" ∧
    (sendReceiptEmail sampleEnv (.errored c1err) "r1" c1db).1 =
      .thrown "Recipient address does not exist" ∧
    ((sendReceiptEmail sampleEnv (.errored c1err) "r1" c1db).2.receipts.find?
      (fun x => x.id == "r1")).map (fun x => x.emailPermanentFailure) =
      some true := by
  decide

/-- C1 amended: on every send failure `sendReceiptEmail` increments the
attempt counter, records the error, appends a FAILED `EmailLog` carrying the
classification, sets `emailPermanentFailure = true` exactly when the
classification is `invalid_email` — and rethrows in every case, including
`invalid_email`; permanent failures are skipped only by the recovery
sweep filter, not by suppressing the rethrow. -/
theorem sendReceiptEmail_failure_amended (env : Env) (e : JsError)
    (receiptId : String) (db : DB) (receipt : Receipt) (u : User)
    (hrec : db.receipts.find? (fun x => x.id == receiptId) = some receipt)
    (hsent : receipt.emailSent = false)
    (hpdf : receipt.pdfGenerated = true)
    (hpath : receipt.pdfLocalPath.isSome = true)
    (huser : db.users.find? (fun x => x.id == receipt.userId) = some u) :
    (sendReceiptEmail env (.errored e) receiptId db).1 =
      .thrown (e.message.getD "") ∧
    (sendReceiptEmail env (.errored e) receiptId db).2.emailLogs =
      db.emailLogs ++
      [{ receiptId := receiptId, userId := receipt.userId, toAddr := u.email,
         fromAddr := emailFrom, subject := "Receipt " ++ receipt.receiptNumber,
         status := .FAILED, attempts := some (receipt.emailSendAttempts + 1),
         errorCode := e.code, errorMessage := e.message,
         errorCategory := some (categorizeEmailError e),
         lastAttemptAt := some env.now, expiresAt := env.now + 7776000000 }] ∧
    (((sendReceiptEmail env (.errored e) receiptId db).2.receipts.find?
      (fun x => x.id == receiptId)).map
        (fun x => (x.emailSendAttempts, x.emailLastError,
          x.emailPermanentFailure))) =
      some (receipt.emailSendAttempts + 1, e.message,
        if categorizeEmailError e = "invalid_email" then true
        else receipt.emailPermanentFailure) := by
  simp only [sendReceiptEmail, hrec, hsent, hpdf, hpath, huser]
  have hrid := List.find?_some hrec
  simp only [beq_iff_eq] at hrid
  by_cases hcat : categorizeEmailError e = "invalid_email"
  · simp [hcat, -List.find?_map, -Option.map_eq_some']
    rw [find?_map_keypres (fun x : Receipt => x.id)]
    · rw [hrec]
      simp [hrid]
    · intro x
      by_cases hx : x.id = receiptId <;> simp [hx]
  · simp [hcat, -List.find?_map, -Option.map_eq_some']
    rw [find?_map_keypres (fun x : Receipt => x.id)]
    · rw [hrec]
      simp [hrid]
    · intro x
      by_cases hx : x.id = receiptId <;> simp [hx]

/-- Witness for C1 amended at the invalid-address error of the
counterexample: the attempt is recorded, the FAILED log is written with
category `invalid_email`, the permanent-failure flag is set, and the error
is rethrown. -/
theorem sendReceiptEmail_failure_amended_witness :
    (sendReceiptEmail sampleEnv (.errored c1err) "r1" c1db).1 =
      .thrown (c1err.message.getD "") ∧
    (sendReceiptEmail sampleEnv (.errored c1err) "r1" c1db).2.emailLogs =
      c1db.emailLogs ++
      [{ receiptId := "r1", userId := sampleReceipt.userId,
         toAddr := sampleUser.email, fromAddr := emailFrom,
         subject := "Receipt " ++ sampleReceipt.receiptNumber,
         status := .FAILED,
         attempts := some (sampleReceipt.emailSendAttempts + 1),
         errorCode := c1err.code, errorMessage := c1err.message,
         errorCategory := some (categorizeEmailError c1err),
         lastAttemptAt := some sampleEnv.now,
         expiresAt := sampleEnv.now + 7776000000 }] ∧
    (((sendReceiptEmail sampleEnv (.errored c1err) "r1" c1db).2.receipts.find?
      (fun x => x.id == "r1")).map
        (fun x => (x.emailSendAttempts, x.emailLastError,
          x.emailPermanentFailure))) =
      some (sampleReceipt.emailSendAttempts + 1, c1err.message,
        if categorizeEmailError c1err = "invalid_email" then true
        else sampleReceipt.emailPermanentFailure) :=
  sendReceiptEmail_failure_amended sampleEnv c1err "r1" c1db sampleReceipt
    sampleUser (by decide) (by decide) (by decide) (by decide) (by decide)

/-! ## Claim C8 -/

theorem emailRecovery_fold_jobs (l : List Receipt) (acc : RecResults × DB) :
    ∀ j ∈ (l.foldl emailRecoveryStep acc).2.enqueuedJobs,
      j ∈ acc.2.enqueuedJobs ∨ ∃ r ∈ l,
        j.queueName = "email-delivery" ∧ j.dataReceiptId = some r.id ∧
        j.isRecovery = true := by
  induction l generalizing acc with
  | nil => exact fun j hj => .inl hj
  | cons a t ih =>
    intro j hj
    have hstep : (emailRecoveryStep acc a).2.enqueuedJobs =
        acc.2.enqueuedJobs ++
        [{ id := "row_" ++ toString acc.2.nextId, queueName := "email-delivery",
           dataReceiptId := some a.id, isRecovery := true, attempts := 3,
           backoffType := some "exponential", backoffDelayMs := some 2000 }] := by
      simp [emailRecoveryStep, enqueueEmailDelivery, queueAdd,
        initializeQueues, freshId]
    rw [List.foldl_cons] at hj
    rcases ih (emailRecoveryStep acc a) j hj with h | ⟨r, hr, hprops⟩
    · rw [hstep] at h
      rcases List.mem_append.mp h with h1 | h2
      · exact .inl h1
      · right
        refine ⟨a, List.mem_cons_self a t, ?_⟩
        rw [List.mem_singleton] at h2
        rw [h2]
        exact ⟨rfl, rfl, rfl⟩
    · exact .inr ⟨r, List.mem_cons_of_mem a hr, hprops⟩

theorem genRecovery_fold_jobs (l : List Receipt) (acc : RecResults × DB) :
    ∀ j ∈ (l.foldl genRecoveryStep acc).2.enqueuedJobs,
      j ∈ acc.2.enqueuedJobs ∨ ∃ r ∈ l,
        j.queueName = "receipt-generation" ∧ j.dataReceiptId = some r.id ∧
        j.isRecovery = true := by
  induction l generalizing acc with
  | nil => exact fun j hj => .inl hj
  | cons a t ih =>
    intro j hj
    have hstep : (genRecoveryStep acc a).2.enqueuedJobs =
        acc.2.enqueuedJobs ++
        [{ id := "row_" ++ toString acc.2.nextId,
           queueName := "receipt-generation", dataReceiptId := some a.id,
           dataOrderId := some a.orderId,
           dataTransactionId := some a.transactionId,
           dataUserId := some a.userId, isRecovery := true, attempts := 3,
           backoffType := some "exponential", backoffDelayMs := some 2000 }] := by
      simp [genRecoveryStep, enqueueReceiptGeneration, queueAdd,
        initializeQueues, freshId]
    rw [List.foldl_cons] at hj
    rcases ih (genRecoveryStep acc a) j hj with h | ⟨r, hr, hprops⟩
    · rw [hstep] at h
      rcases List.mem_append.mp h with h1 | h2
      · exact .inl h1
      · right
        refine ⟨a, List.mem_cons_self a t, ?_⟩
        rw [List.mem_singleton] at h2
        rw [h2]
        exact ⟨rfl, rfl, rfl⟩
    · exact .inr ⟨r, List.mem_cons_of_mem a hr, hprops⟩

theorem uploadRecovery_fold_jobs (l : List Receipt) (acc : RecResults × DB) :
    ∀ j ∈ (l.foldl uploadRecoveryStep acc).2.enqueuedJobs,
      j ∈ acc.2.enqueuedJobs ∨ ∃ r ∈ l,
        j.queueName = "cloudinary-upload" ∧ j.dataReceiptId = some r.id ∧
        j.isRecovery = true := by
  induction l generalizing acc with
  | nil => exact fun j hj => .inl hj
  | cons a t ih =>
    intro j hj
    have hstep : (uploadRecoveryStep acc a).2.enqueuedJobs =
        acc.2.enqueuedJobs ++
        [{ id := "row_" ++ toString acc.2.nextId,
           queueName := "cloudinary-upload", dataReceiptId := some a.id,
           isRecovery := true, attempts := 3,
           backoffType := some "exponential", backoffDelayMs := some 2000 }] := by
      simp [uploadRecoveryStep, enqueueCloudinaryUpload, queueAdd,
        initializeQueues, freshId]
    rw [List.foldl_cons] at hj
    rcases ih (uploadRecoveryStep acc a) j hj with h | ⟨r, hr, hprops⟩
    · rw [hstep] at h
      rcases List.mem_append.mp h with h1 | h2
      · exact .inl h1
      · right
        refine ⟨a, List.mem_cons_self a t, ?_⟩
        rw [List.mem_singleton] at h2
        rw [h2]
        exact ⟨rfl, rfl, rfl⟩
    · exact .inr ⟨r, List.mem_cons_of_mem a hr, hprops⟩

/-- C8: each recovery pass selects at most 50 receipts, only those whose
stage conditions hold (in particular never one whose stage completion flag
is already true), and every job it enqueues beyond the pre-existing ones is
a recovery job for one of the selected receipts. -/
theorem recovery_sweep_guards (env : Env) (db : DB) :
    ((stuckEmails env db).length ≤ 50 ∧
     ∀ r ∈ stuckEmails env db,
       r.pdfGenerated = true ∧ r.emailSent = false ∧
       r.emailSendAttempts < 5 ∧ r.emailPermanentFailure = false ∧
       r.createdAt < env.now - 1800000) ∧
    ((stuckGenerations env db).length ≤ 50 ∧
     ∀ r ∈ stuckGenerations env db,
       r.pdfGenerated = false ∧ r.pdfGenerationAttempts < 3 ∧
       r.createdAt < env.now - 900000) ∧
    ((stuckUploads env db).length ≤ 50 ∧
     ∀ r ∈ stuckUploads env db,
       r.pdfGenerated = true ∧ r.cloudinaryUploaded = false ∧
       r.cloudinaryUploadAttempts < 5 ∧ r.createdAt < env.now - 1800000) ∧
    (∀ j ∈ (recoverFailedEmails env db).2.enqueuedJobs,
       j ∈ db.enqueuedJobs ∨ ∃ r ∈ stuckEmails env db,
         j.queueName = "email-delivery" ∧ j.dataReceiptId = some r.id ∧
         j.isRecovery = true ∧ r.emailSent = false) ∧
    (∀ j ∈ (recoverFailedGenerations env db).2.enqueuedJobs,
       j ∈ db.enqueuedJobs ∨ ∃ r ∈ stuckGenerations env db,
         j.queueName = "receipt-generation" ∧ j.dataReceiptId = some r.id ∧
         j.isRecovery = true ∧ r.pdfGenerated = false) ∧
    (∀ j ∈ (recoverFailedUploads env db).2.enqueuedJobs,
       j ∈ db.enqueuedJobs ∨ ∃ r ∈ stuckUploads env db,
         j.queueName = "cloudinary-upload" ∧ j.dataReceiptId = some r.id ∧
         j.isRecovery = true ∧ r.cloudinaryUploaded = false) := by
  have hemail : ∀ r ∈ stuckEmails env db,
      r.pdfGenerated = true ∧ r.emailSent = false ∧
      r.emailSendAttempts < 5 ∧ r.emailPermanentFailure = false ∧
      r.createdAt < env.now - 1800000 := by
    intro r hr
    have hp := List.of_mem_filter (List.mem_of_mem_take hr)
    simpa [emailStuckPred, Bool.and_eq_true, decide_eq_true_eq,
      and_assoc] using hp
  have hgen : ∀ r ∈ stuckGenerations env db,
      r.pdfGenerated = false ∧ r.pdfGenerationAttempts < 3 ∧
      r.createdAt < env.now - 900000 := by
    intro r hr
    have hp := List.of_mem_filter (List.mem_of_mem_take hr)
    simpa [genStuckPred, Bool.and_eq_true, decide_eq_true_eq,
      and_assoc] using hp
  have hupl : ∀ r ∈ stuckUploads env db,
      r.pdfGenerated = true ∧ r.cloudinaryUploaded = false ∧
      r.cloudinaryUploadAttempts < 5 ∧ r.createdAt < env.now - 1800000 := by
    intro r hr
    have hp := List.of_mem_filter (List.mem_of_mem_take hr)
    simpa [uploadStuckPred, Bool.and_eq_true, decide_eq_true_eq,
      and_assoc] using hp
  refine ⟨⟨List.length_take_le 50 _, hemail⟩,
          ⟨List.length_take_le 50 _, hgen⟩,
          ⟨List.length_take_le 50 _, hupl⟩, ?_, ?_, ?_⟩
  · intro j hj
    rcases emailRecovery_fold_jobs (stuckEmails env db)
      ({ requeued := 0, failed := 0 }, db) j hj with h | ⟨r, hr, h1, h2, h3⟩
    · exact .inl h
    · exact .inr ⟨r, hr, h1, h2, h3, (hemail r hr).2.1⟩
  · intro j hj
    rcases genRecovery_fold_jobs (stuckGenerations env db)
      ({ requeued := 0, failed := 0 }, db) j hj with h | ⟨r, hr, h1, h2, h3⟩
    · exact .inl h
    · exact .inr ⟨r, hr, h1, h2, h3, (hgen r hr).1⟩
  · intro j hj
    rcases uploadRecovery_fold_jobs (stuckUploads env db)
      ({ requeued := 0, failed := 0 }, db) j hj with h | ⟨r, hr, h1, h2, h3⟩
    · exact .inl h
    · exact .inr ⟨r, hr, h1, h2, h3, (hupl r hr).2.1⟩

def c8receipt : Receipt :=
  { sampleReceipt with emailSendAttempts := 2,
                       createdAt := 1770000000000 }

def c8db : DB := { receipts := [c8receipt] }

/-- Witness for C8: a receipt with the PDF done, the email unsent after two
tries and created long ago is selected by the email pass, and the selected
receipt satisfies every stage condition. -/
theorem recovery_sweep_guards_witness :
    c8receipt ∈ stuckEmails sampleEnv c8db ∧
    (c8receipt.pdfGenerated = true ∧ c8receipt.emailSent = false ∧
     c8receipt.emailSendAttempts < 5 ∧
     c8receipt.emailPermanentFailure = false ∧
     c8receipt.createdAt < sampleEnv.now - 1800000) :=
  ⟨by decide,
   (recovery_sweep_guards sampleEnv c8db).1.2 c8receipt (by decide)⟩

end ReceiptGen
